import Mathlib

/-!
Verification development for the OPERATION GROVE GUARDIAN synthetic document
generator (`ogg_generator.py`).

The Python program drives all randomness through the global `random` module:
`random.seed(42)` at module load, local reseeds `random.seed(42 + day)` inside
`DailyState.__init__`, `generate_aco` and `generate_jiptl`, each followed by
`random.seed(42)`.  We model the generator state extensionally as a pair
`(seed, idx)` — the seed last planted and the number of draws made since —
together with an abstract entropy function `φ : seed → idx → Nat` standing for
the Mersenne-Twister output stream.  Every theorem quantifies over `φ`, so the
results hold for any deterministic PRNG, which is all the source relies on.

Floating point: the source computes `int(day * c)` for small decimal constants
`c`.  We model these exactly as floor divisions on naturals (e.g. `int(day *
0.03)` becomes `3 * day / 100`); rounding of the float product is monotone, and
only monotonicity and small-day values play a role in the claims.  Document
rendering (python-docx layout, DTG/calendar string formatting, file I/O) is out
of scope per the spec; the random draws and data selections feeding each
document are modelled in full.
-/

namespace OGG

/-- Extensional state of the `random` module generator: the seed last set and
the number of values drawn since. -/
structure RState where
  seed : Nat
  idx : Nat
deriving DecidableEq

/-- Abstract entropy source: output of the PRNG seeded with `seed` at draw
position `idx`. -/
abbrev Entropy := Nat → Nat → Nat

/-- `random.seed(s)`. -/
def rseed (s : Nat) : RState := ⟨s, 0⟩

/-- Draw one raw value and advance the state. -/
def next (φ : Entropy) (g : RState) : Nat × RState :=
  (φ g.seed g.idx, ⟨g.seed, g.idx + 1⟩)

/-- `random.randint(a, b)`: inclusive uniform draw, modelled as a modulus of the
raw entropy value; its result always lies in `[a, b]` when `a ≤ b`. -/
def randint (φ : Entropy) (a b : Int) (g : RState) : Int × RState :=
  let v := next φ g
  (a + (v.1 : Int) % (b - a + 1), v.2)

/-- Core of `random.sample`: draw `k` elements without replacement by repeated
indexed removal. -/
def sampleAux (φ : Entropy) : Nat → List α → RState → List α × RState
  | 0, _, g => ([], g)
  | _ + 1, [], g => ([], g)
  | k + 1, x :: xs, g =>
    let v := next φ g
    let i : Fin (xs.length + 1) := ⟨v.1 % (xs.length + 1), Nat.mod_lt _ (Nat.succ_pos _)⟩
    let rest := sampleAux φ k ((x :: xs).eraseIdx i) v.2
    ((x :: xs).get i :: rest.1, rest.2)

/-- `random.sample(population, k)`. -/
def sample (φ : Entropy) (l : List α) (k : Nat) (g : RState) : List α × RState :=
  sampleAux φ k l g

/-- `random.shuffle(x)`: modelled as drawing a full-length sample without
replacement, i.e. a permutation driven by successive index draws. -/
def shuffle (φ : Entropy) (l : List α) (g : RState) : List α × RState :=
  sampleAux φ l.length l g

/-- `random.choice(seq)`: one indexed draw (`d` is a dummy for the empty case,
which the source never hits). -/
def pick (φ : Entropy) (l : List α) (d : α) (g : RState) : α × RState :=
  let v := next φ g
  (l.getD (v.1 % l.length) d, v.2)

/-! ## Configuration and scenario data pools -/

/-- One row of the `PHASES` dict: display name, inclusive day range, label.
(The source key `end` is a Lean keyword; it is named `stop` here.) -/
structure PhaseInfo where
  name : String
  start : Nat
  stop : Nat
  label : String
deriving DecidableEq

/-- The `PHASES` table, in dict order. -/
def PHASES : List (Nat × PhaseInfo) :=
  [(1, ⟨"Shape", 0, 30, "I"⟩),
   (2, ⟨"Train and Secure", 31, 120, "II"⟩),
   (3, ⟨"Operate and Expand", 121, 270, "III"⟩),
   (4, ⟨"Transition", 271, 999, "IV"⟩)]

def CCIR_INTERVAL : Nat := 3

def PIR_INTERVAL : Nat := 3

/-- A `TARGET_POOL` row: `(TGT_ID, Name, Category, Base MGRS, CDE,
Phase_available_from)`. -/
structure Target where
  id : String
  name : String
  cat : String
  mgrs : String
  cde : String
  avail : Nat
deriving DecidableEq

def TARGET_POOL : List Target :=
  [⟨"SLM-LOG-001", "Primary Weapons Cache (Border Region)", "LOGISTICS", "17R NM 4523 78", "LOW", 0⟩,
   ⟨"SLM-LOG-002", "Cross-Border Smuggling LZ Alpha", "LOGISTICS", "17R NM 5678 89", "LOW", 0⟩,
   ⟨"SLM-LOG-003", "Fuel/Supply Point (Scrubland East)", "LOGISTICS", "17R NM 4012 72", "LOW", 0⟩,
   ⟨"SLM-LOG-004", "IED/Demolitions Workshop", "LOGISTICS", "17R NM 3678 68", "MOD", 0⟩,
   ⟨"SLM-LOG-005", "Safe House Network (Company Town 3)", "LOGISTICS", "17R NM 3500 71", "HIGH", 0⟩,
   ⟨"SLM-LOG-006", "Secondary Weapons Cache (Swamp Edge)", "LOGISTICS", "17R NM 3100 65", "LOW", 15⟩,
   ⟨"SLM-LOG-007", "Smuggling LZ Bravo (Coastal Relay)", "LOGISTICS", "17R NM 5890 91", "LOW", 10⟩,
   ⟨"SLM-LOG-008", "Medical Supply Cache", "LOGISTICS", "17R NM 3345 69", "MOD", 30⟩,
   ⟨"SLM-LOG-009", "Vehicle Staging Area", "LOGISTICS", "17R NM 4200 74", "LOW", 45⟩,
   ⟨"SLM-LOG-010", "Boat Cache (River Junction)", "LOGISTICS", "17R NM 2800 62", "LOW", 20⟩,
   ⟨"SLM-C2-001", "Regional Commander CP (Swamp Central)", "C2", "17R NM 3456 67", "LOW", 0⟩,
   ⟨"SLM-C2-002", "Communications Relay (Hill 247)", "C2", "17R NM 3890 70", "LOW", 0⟩,
   ⟨"SLM-C2-003", "Finance/Funding Cell (Arcadia)", "C2", "17R NM 3210 65", "HIGH", 0⟩,
   ⟨"SLM-C2-004", "Alternate CP (Scrubland North)", "C2", "17R NM 3780 72", "LOW", 40⟩,
   ⟨"SLM-C2-005", "Courier Network Hub", "C2", "17R NM 3560 68", "MOD", 25⟩,
   ⟨"SLM-INF-001", "Propaganda Media Center (Arcadia Urban)", "INFO OPS", "17R NM 3200 65", "HIGH", 0⟩,
   ⟨"SLM-INF-002", "Social Media Operations Cell", "INFO OPS", "17R NM 3250 64", "HIGH", 0⟩,
   ⟨"SLM-INF-003", "Underground Print Shop (Company Town 7)", "INFO OPS", "17R NM 3400 66", "MOD", 20⟩,
   ⟨"SLM-TRN-001", "Training Camp Alpha (Deep Swamp)", "FORCE", "17R NM 2890 62", "LOW", 0⟩,
   ⟨"SLM-TRN-002", "Training Camp Bravo (Scrubland West)", "FORCE", "17R NM 2560 67", "LOW", 0⟩,
   ⟨"SLM-TRN-003", "Recruit Assembly Point (Lake Region)", "FORCE", "17R NM 2700 64", "LOW", 35⟩,
   ⟨"SLM-SAB-001", "Corridor Sabotage Cell (KM 30-50)", "FORCE", "17R NM 3900 75", "LOW", 5⟩,
   ⟨"SLM-SAB-002", "Corridor Sabotage Cell (KM 80-100)", "FORCE", "17R NM 4100 78", "LOW", 5⟩,
   ⟨"SLM-SAB-003", "Bridge Assault Team (Rio Verde Bridge)", "FORCE", "17R NM 4300 80", "MOD", 15⟩,
   ⟨"SLM-MAR-001", "Port Manatee Sleeper Cell", "FORCE", "17R NM 5500 88", "HIGH", 30⟩,
   ⟨"SLM-CYB-001", "Cyber Operations Cell (Unknown Location)", "C2", "17R NM 3200 65", "HIGH", 60⟩]

/-- An `EVENTS_POOL` row: `(day_trigger_min, day_trigger_max, event_text,
impact_type)`. -/
structure Event where
  lo : Nat
  hi : Nat
  text : String
  impact : String
deriving DecidableEq

def EVENTS_POOL : List Event :=
  [⟨1, 5, "SLM propaganda leaflets distributed in Company Town 2", "INFO"⟩,
   ⟨2, 8, "HNSF tip-line reports SLM movement near KM 45 of corridor", "INTEL"⟩,
   ⟨3, 10, "Small arms fire exchanged between HNSF patrol and SLM cell near the swamp edge", "CONTACT"⟩,
   ⟨5, 15, "IED discovered and neutralized on rail line at KM 67", "SABOTAGE"⟩,
   ⟨7, 20, "SLM propaganda video posted on social media showing staged attack", "INFO"⟩,
   ⟨8, 25, "HUMINT source reports SLM planning meeting in Scrubland East", "INTEL"⟩,
   ⟨10, 30, "Cross-border smuggling boat interdicted by HNSF Border Guard; weapons recovered", "INTERDICTION"⟩,
   ⟨12, 35, "CA team conducts well-digging project in Company Town 4; positive reception", "CIVIL"⟩,
   ⟨15, 40, "SLM ambush of CSG patrol near KM 92; 2x HNSF WIA, SLM repelled", "CONTACT"⟩,
   ⟨18, 50, "Radio Solara Libre begins broadcasting; initial listener metrics positive", "INFO"⟩,
   ⟨20, 55, "First SLM defector surrenders via amnesty program; debriefed by J-2", "INTEL"⟩,
   ⟨25, 60, "CUAS system detects and defeats hostile drone near Camp Citrus", "CUAS"⟩,
   ⟨30, 70, "Swamp Rangers conduct first independent patrol; no contact", "HNSF_PROGRESS"⟩,
   ⟨35, 80, "SLM attacks citrus processing plant in Sector 3; minimal damage", "SABOTAGE"⟩,
   ⟨40, 90, "Second amnesty defector provides SLM OOB information", "INTEL"⟩,
   ⟨45, 100, "CSG interdicts SLM sabotage cell preparing to attack Rio Verde Bridge", "INTERDICTION"⟩,
   ⟨50, 110, "SLM cyber intrusion detected on HNSF email server; isolated and eradicated", "CYBER"⟩,
   ⟨60, 130, "Swamp Rangers clear SLM camp; 12 SLM detained by HNSF", "CLEARING"⟩,
   ⟨75, 150, "SLM corridor attacks decrease 40% from baseline", "PROGRESS"⟩,
   ⟨90, 180, "GoS announces land reform pilot program for Grove Laborers", "CIVIL"⟩,
   ⟨100, 200, "SLM VIPER (supreme commander) communicates frustration to foreign sponsor per SIGINT", "INTEL"⟩,
   ⟨120, 240, "HNSF conducts first fully independent corridor security rotation", "HNSF_PROGRESS"⟩,
   ⟨150, 270, "SLM recruitment rate down estimated 60% per HUMINT", "PROGRESS"⟩,
   ⟨200, 300, "SLM offers ceasefire negotiations through intermediary", "DIPLOMATIC"⟩,
   ⟨250, 350, "GoS Ministry of Information assumes lead for Radio Solara Libre", "TRANSITION"⟩]

/-- `MISSION_TYPES_ISR`: `(callsign base, airframe, unit, mission type)`. -/
def MISSION_TYPES_ISR : List (String × String × String × String) :=
  [("SHADOW", "MQ-1C", "UAS PLT/SOTF-K", "ISR"),
   ("RAVEN", "RQ-20B", "SOTF-C", "ISR"),
   ("PUMA", "RQ-11B", "CATF", "ISR"),
   ("SCAN EAGLE", "RQ-21A", "SOTF-K", "ISR")]

def MISSION_TYPES_SUPPORT : List (String × String × String × String) :=
  [("DUSTOFF", "UH-60M", "MEDEVAC DET", "MEDEVAC"),
   ("ATLAS", "C-146A", "AFSOC DET", "AIRLIFT"),
   ("TALON", "MC-130J", "AFSOC DET", "INFILTRATION"),
   ("NIGHTHAWK", "MH-60M", "160th SOAR DET", "ASSAULT SUPPORT")]

def ISR_AREAS : List String :=
  ["CORRIDOR NORTH (COR-N)", "CORRIDOR SOUTH (COR-S)", "SWAMP CENTRAL (SWP-C)",
   "BORDER EAST (BDR-E)", "BORDER WEST (BDR-W)", "ARCADIA URBAN (ARC-U)",
   "PORT MANATEE APPROACH (PM-A)", "SCRUBLAND NORTH (SCR-N)", "SCRUBLAND SOUTH (SCR-S)",
   "LAKE REGION (LK-R)", "RIVER JUNCTION (RVR-J)", "COMPANY TOWN CLUSTER (CT-C)"]

/-! ## Helper functions -/

/-- `get_phase(day)`: first phase whose `[start, end]` range contains `day`,
else the fallback `4`. -/
def get_phase (day : Nat) : Nat :=
  match PHASES.find? (fun p => decide (p.2.start ≤ day ∧ day ≤ p.2.stop)) with
  | some p => p.1
  | none => 4

/-- Row lookup in the `PHASES` dict (total on keys 1-4, which is all
`get_phase` returns). -/
def phase_info (p : Nat) : PhaseInfo :=
  match PHASES.find? (fun q => q.1 == p) with
  | some q => q.2
  | none => ⟨"", 0, 0, ""⟩

/-- `get_phase_info(day) = PHASES[get_phase(day)]`. -/
def get_phase_info (day : Nat) : PhaseInfo :=
  phase_info (get_phase day)

/-- `is_phase_transition(day)`: whether `day` is the start of some phase. -/
def is_phase_transition (day : Nat) : Bool :=
  PHASES.any (fun p => p.2.start == day)

/-- `str.split()` with no arguments: split on runs of whitespace, discarding
empty pieces.  Accumulator carries the current word reversed. -/
def splitWs : List Char → List Char → List String
  | [], acc => if acc.isEmpty then [] else [String.mk acc.reverse]
  | c :: cs, acc =>
    if c.isWhitespace then
      if acc.isEmpty then splitWs cs [] else String.mk acc.reverse :: splitWs cs []
    else splitWs cs (c :: acc)

def pySplit (s : String) : List String := splitWs s.toList []

/-- Digits-only string to number; `none` on the empty list or any non-digit. -/
def digitsToNat : List Char → Option Nat
  | [] => none
  | cs => cs.foldl (fun acc c => acc.bind (fun n =>
      if c.isDigit then some (n * 10 + (c.toNat - 48)) else none)) (some 0)

/-- Model of Python `int(str)`: strip surrounding whitespace, optional sign,
then decimal digits; `none` models `ValueError`.  (Underscore digit separators
are not modelled.) -/
def pyInt (s : String) : Option Int :=
  let cs := ((s.toList.dropWhile Char.isWhitespace).reverse.dropWhile Char.isWhitespace).reverse
  match cs with
  | '+' :: rest => (digitsToNat rest).map (fun n => (n : Int))
  | '-' :: rest => (digitsToNat rest).map (fun n => -(n : Int))
  | rest => (digitsToNat rest).map (fun n => (n : Int))

/-- Python `f"{n:0wd}"` for a natural number: left pad with zeros to width `w`. -/
def padNat (w : Nat) (n : Nat) : String :=
  let s := Nat.repr n
  String.mk (List.replicate (w - s.length) '0') ++ s

/-- Python `f"{x:0wd}"` for an integer: the sign, when present, counts toward
the width and precedes the zeros. -/
def padInt (w : Nat) (x : Int) : String :=
  if x < 0 then "-" ++ padNat (w - 1) x.natAbs else padNat w x.natAbs

/-- `jitter_mgrs(base_mgrs)`: add small random variation to an MGRS coordinate
string; on fewer than four parts or an unparsable easting/northing, fall back
to the original string.  The `random.randint` calls happen after the respective
`int(...)` conversions, so a failure on `parts[3]` still consumes one draw. -/
def jitter_mgrs (φ : Entropy) (base : String) (g : RState) : String × RState :=
  let parts := pySplit base
  if h : 4 ≤ parts.length then
    match pyInt (parts.get ⟨2, by omega⟩) with
    | none => (base, g)
    | some e0 =>
      let r1 := randint φ (-50) 50 g
      match pyInt (parts.get ⟨3, by omega⟩) with
      | none => (base, r1.2)
      | some n0 =>
        let r2 := randint φ (-50) 50 r1.2
        (parts.get ⟨0, by omega⟩ ++ " " ++ parts.get ⟨1, by omega⟩ ++ " " ++
          padInt 4 (e0 + r1.1) ++ " " ++ padInt 2 (n0 + r2.1), r2.2)
  else (base, g)

/-! ## Daily state engine -/

/-- An ATO mission line.  Time-on-target windows are kept as hour offsets from
the day's base time; rendering them as DTG strings is presentation. -/
structure Mission where
  num : Nat
  callsign : String
  acft : String
  unit : String
  mtype : String
  area : String
  totStart : Int
  totEnd : Int
  remarks : String
deriving DecidableEq

/-- The per-day aggregate built by `DailyState.__init__`.  Calendar timestamp
strings (`dtg`, `eff_dtg`, `end_dtg`) are pure formatting of `day` and are not
modelled. -/
structure DailyState where
  day : Nat
  phase : Nat
  phase_label : String
  phase_name : String
  slm_strength : Int
  hnsf_readiness : Int
  corridor_threat : Int
  popular_support_gos : Int
  tip_line_calls : Int
  amnesty_surrenders : Int
  events : List Event
  event_texts : List String
  active_targets : List Target
  jiptl_above_cut : List Target
  jiptl_below_cut : List Target
  ato_missions : List Mission
  acm_count : Int
  fscm_count : Int
deriving DecidableEq

/-- `[t for t in TARGET_POOL if t[5] <= day]`. -/
def availableTargets (day : Nat) : List Target :=
  TARGET_POOL.filter (fun t => t.avail ≤ day)

/-- `neutralized_count = min(len(available) - 5, int(day * 0.03))`. -/
def neutralized_count (day : Nat) : Int :=
  min (((availableTargets day).length : Int) - 5) ((3 * day / 100 : Nat) : Int)

/-- The ISR part of `_generate_ato_missions`: one mission per sampled area,
drawing platform, callsign number, start hour and duration in source order. -/
def isrMissions (φ : Entropy) (day : Nat) : List String → Nat → RState → List Mission × RState
  | [], _, g => ([], g)
  | area :: more, n, g =>
    let pf := pick φ MISSION_TYPES_ISR ("", "", "", "") g
    let cs := randint φ 1 99 pf.2
    let sh := randint φ 6 10 cs.2
    let du := randint φ 4 12 sh.2
    let rest := isrMissions φ day more (n + 1) du.2
    ({ num := n, callsign := pf.1.1 ++ " " ++ padInt 2 cs.1,
       acft := pf.1.2.1, unit := pf.1.2.2.1, mtype := pf.1.2.2.2,
       area := area, totStart := sh.1, totEnd := min (sh.1 + du.1) 23,
       remarks := "ISR coverage; ATO Day " ++ padNat 3 (day + 1) } :: rest.1, rest.2)

/-- `_generate_ato_missions`: sampled ISR areas, the two standing support
missions, and — from phase 3 on — one extra assault-support mission. -/
def genAtoMissions (φ : Entropy) (day : Nat) (phase : Nat) (g : RState) : List Mission × RState :=
  let kI := randint φ 4 7 g
  let ar := sample φ ISR_AREAS (min ISR_AREAS.length kI.1.toNat) kI.2
  let isr := isrMissions φ day ar.1 1 ar.2
  let n1 := isr.1.length + 1
  let sup1 := MISSION_TYPES_SUPPORT.getD 0 ("", "", "", "")
  let c1 := randint φ 1 20 isr.2
  let m1 : Mission :=
    { num := n1, callsign := sup1.1 ++ " " ++ padInt 2 c1.1,
      acft := sup1.2.1, unit := sup1.2.2.1, mtype := sup1.2.2.2,
      area := "CAMP CITRUS / JOA-WIDE", totStart := 0, totEnd := 18,
      remarks := if sup1.2.2.2 = "MEDEVAC" then "Standing mission" else "Resupply run" }
  let sup2 := MISSION_TYPES_SUPPORT.getD 1 ("", "", "", "")
  let c2 := randint φ 1 20 c1.2
  let m2 : Mission :=
    { num := n1 + 1, callsign := sup2.1 ++ " " ++ padInt 2 c2.1,
      acft := sup2.2.1, unit := sup2.2.2.1, mtype := sup2.2.2.2,
      area := "CAMP CITRUS / JOA-WIDE", totStart := 0, totEnd := 18,
      remarks := if sup2.2.2.2 = "MEDEVAC" then "Standing mission" else "Resupply run" }
  if 3 ≤ phase then
    let ex := pick φ (MISSION_TYPES_SUPPORT.drop 2) ("", "", "", "") c2.2
    let c3 := randint φ 1 20 ex.2
    let a3 := pick φ (ISR_AREAS.take 3) "" c3.2
    let h3 := randint φ 1 6 a3.2
    let m3 : Mission :=
      { num := n1 + 2, callsign := ex.1.1 ++ " " ++ padInt 2 c3.1,
        acft := ex.1.2.1, unit := ex.1.2.2.1, mtype := ex.1.2.2.2,
        area := a3.1, totStart := h3.1, totEnd := h3.1,
        remarks := "HNSF-led operation support" }
    (isr.1 ++ [m1, m2, m3], h3.2)
  else
    (isr.1 ++ [m1, m2], c2.2)

/-- The day-seeded block of `DailyState.__init__` (lines 283-294): starting
from `random.seed(42 + day)`, draw the neutralized sample, filter it out,
shuffle the survivors and draw the JIPTL cut.  Returns
`(active_targets, jiptl_above_cut, jiptl_below_cut)` and the generator state
reached, from which `_generate_ato_missions` continues. -/
def dayTargetSection (φ : Entropy) (day : Nat) :
    (List Target × List Target × List Target) × RState :=
  let g0 := rseed (42 + day)
  let available := availableTargets day
  let nc := neutralized_count day
  let idg : List String × RState :=
    if 0 < nc then
      let ch := sample φ available nc.toNat g0
      (ch.1.map (fun t => t.id), ch.2)
    else ([], g0)
  let active0 := available.filter (fun t => !(idg.1.contains t.id))
  let sh := shuffle φ active0 idg.2
  let cut := randint φ 6 10 sh.2
  let nAbove := min sh.1.length cut.1.toNat
  ((sh.1, sh.1.take nAbove, sh.1.drop nAbove), cut.2)

/-- `DailyState.__init__`: metrics and event selection from the ambient
stream, then the day-seeded target/mission block, finishing with
`random.seed(42)`.  The `int(day * c)` float products are modelled as exact
floor divisions (see the module docstring). -/
def dailyState (φ : Entropy) (g : RState) (day : Nat) : DailyState × RState :=
  let n1 := randint φ (-100) 100 g
  let n2 := randint φ (-5) 5 n1.2
  let n3 := randint φ (-1) 1 n2.2
  let n4 := randint φ (-3) 3 n3.2
  let n5 := randint φ (-5) 10 n4.2
  let n6 := randint φ (-2) 3 n5.2
  let evs0 := EVENTS_POOL.filter (fun e => decide (e.lo ≤ day ∧ day ≤ e.hi))
  let evg : List Event × RState :=
    if evs0.isEmpty then (evs0, n6.2)
    else
      let k := randint φ 1 3 n6.2
      sample φ evs0 (min evs0.length k.1.toNat) k.2
  let ts := dayTargetSection φ day
  let ms := genAtoMissions φ day (get_phase day) ts.2
  let acm := randint φ 6 10 ms.2
  let fscm := randint φ 5 8 acm.2
  ({ day := day
     phase := get_phase day
     phase_label := (get_phase_info day).label
     phase_name := (get_phase_info day).name
     slm_strength := max 500 (3000 - ((13 * day / 2 : Nat) : Int) + n1.1)
     hnsf_readiness := min 95 (35 + ((18 * day / 100 : Nat) : Int) + n2.1)
     corridor_threat := max 1 (10 - ((2 * day / 100 : Nat) : Int) + n3.1)
     popular_support_gos := min 80 (30 + ((14 * day / 100 : Nat) : Int) + n4.1)
     tip_line_calls := max 0 (((8 * day / 10 : Nat) : Int) + n5.1)
     amnesty_surrenders := max 0 (((15 * day / 100 : Nat) : Int) + n6.1)
     events := evg.1
     event_texts := evg.1.map (fun e => e.text)
     active_targets := ts.1.1
     jiptl_above_cut := ts.1.2.1
     jiptl_below_cut := ts.1.2.2
     ato_missions := ms.1
     acm_count := acm.1
     fscm_count := fscm.1 }, rseed 42)

/-- Counterfactual variant of `DailyState.__init__` written from the spec's
wording of the reseed discipline, for comparison with `dailyState`: the
day-seeded generator is used only for picking the neutralized set, on a
private stream, leaving the ambient stream untouched; the shuffle, cut,
missions and control-measure counts consume the ambient stream, which then
continues past the construction (no reset at the end). -/
def dailyStateSpec (φ : Entropy) (g : RState) (day : Nat) : DailyState × RState :=
  let n1 := randint φ (-100) 100 g
  let n2 := randint φ (-5) 5 n1.2
  let n3 := randint φ (-1) 1 n2.2
  let n4 := randint φ (-3) 3 n3.2
  let n5 := randint φ (-5) 10 n4.2
  let n6 := randint φ (-2) 3 n5.2
  let evs0 := EVENTS_POOL.filter (fun e => decide (e.lo ≤ day ∧ day ≤ e.hi))
  let evg : List Event × RState :=
    if evs0.isEmpty then (evs0, n6.2)
    else
      let k := randint φ 1 3 n6.2
      sample φ evs0 (min evs0.length k.1.toNat) k.2
  let available := availableTargets day
  let nc := neutralized_count day
  let ids : List String :=
    if 0 < nc then ((sample φ available nc.toNat (rseed (42 + day))).1.map (fun t => t.id))
    else []
  let active0 := available.filter (fun t => !(ids.contains t.id))
  let sh := shuffle φ active0 evg.2
  let cut := randint φ 6 10 sh.2
  let nAbove := min sh.1.length cut.1.toNat
  let ms := genAtoMissions φ day (get_phase day) cut.2
  let acm := randint φ 6 10 ms.2
  let fscm := randint φ 5 8 acm.2
  ({ day := day
     phase := get_phase day
     phase_label := (get_phase_info day).label
     phase_name := (get_phase_info day).name
     slm_strength := max 500 (3000 - ((13 * day / 2 : Nat) : Int) + n1.1)
     hnsf_readiness := min 95 (35 + ((18 * day / 100 : Nat) : Int) + n2.1)
     corridor_threat := max 1 (10 - ((2 * day / 100 : Nat) : Int) + n3.1)
     popular_support_gos := min 80 (30 + ((14 * day / 100 : Nat) : Int) + n4.1)
     tip_line_calls := max 0 (((8 * day / 10 : Nat) : Int) + n5.1)
     amnesty_surrenders := max 0 (((15 * day / 100 : Nat) : Int) + n6.1)
     events := evg.1
     event_texts := evg.1.map (fun e => e.text)
     active_targets := sh.1
     jiptl_above_cut := sh.1.take nAbove
     jiptl_below_cut := sh.1.drop nAbove
     ato_missions := ms.1
     acm_count := acm.1
     fscm_count := fscm.1 }, fscm.2)

/-! ## Document generators (random-dependent content) -/

/-- The single ambient draw inside `generate_frago`: the 24-hour tip-line
figure `max(0, state.tip_line_calls + random.randint(-3, 3))`. -/
def fragoTipDraw (φ : Entropy) (st : DailyState) (g : RState) : Int × RState :=
  let r := randint φ (-3) 3 g
  (max 0 (st.tip_line_calls + r.1), r.2)

/-- An ACM table row of `generate_aco`: row number, selected index into
`acm_names`, resolved type and controlling agency.  The constant name,
location and altitude columns keyed by `sel` are fixed data. -/
structure AcmRow where
  row : Nat
  sel : Nat
  type : String
  ctrl : String
deriving DecidableEq

def ACM_TYPES : List String := ["ROZ", "UA", "HIDACZ", "ACA"]

/-- The per-row loop of `generate_aco`: type from `sel % 4`; the controlling
agency draw happens only for types outside `["ROZ", "HIDACZ", "ACA"]`. -/
def acmRows (φ : Entropy) : List Nat → Nat → RState → List AcmRow × RState
  | [], _, g => ([], g)
  | s :: ss, i, g =>
    let t := ACM_TYPES.getD (s % ACM_TYPES.length) ""
    let cg : String × RState :=
      if t = "ROZ" ∨ t = "HIDACZ" ∨ t = "ACA" then ("JTF JOC", g)
      else pick φ ["SOTF-C", "SOTF-K", "SOTF-B", "CATF"] "" g
    let rest := acmRows φ ss (i + 1) cg.2
    (⟨i, s, t, cg.1⟩ :: rest.1, rest.2)

/-- `fscm_data`: `(type, name, location, effective)`. -/
def FSCM_DATA : List (String × String × String × String) :=
  [("NFA", "ARCADIA CITY", "5km radius Arcadia center", "CONTINUOUS"),
   ("NFA", "PORT MANATEE", "3km radius Port Manatee", "CONTINUOUS"),
   ("RFA", "CORRIDOR ZONE", "5km either side PM corridor", "CONTINUOUS"),
   ("NFA", "EMBASSY COMPOUND", "1km radius U.S. Embassy", "CONTINUOUS"),
   ("CFL", "BORDER CFL", "Along international border", "CONTINUOUS"),
   ("NFA", "HOSPITAL ZONE", "500m radius Arcadia General", "CONTINUOUS"),
   ("FFA", "SWAMP CLEAR", "Designated SLM sanctuary area", "ON ORDER"),
   ("RFA", "COMPANY TOWN BUFFER", "2km radius Company Towns 1-5", "CONTINUOUS")]

/-- The random-dependent content of `generate_aco`: reseed with `42 + day`,
sample `n_acms` of the ten ACM indices, build the rows, take the first
`n_fscms` FSCM rows, then `random.seed(42)`. -/
def acoContent (φ : Entropy) (st : DailyState) (_g : RState) :
    (List AcmRow × List (String × String × String × String)) × RState :=
  let g0 := rseed (42 + st.day)
  let nAcms := min st.acm_count 10
  let sel := sample φ (List.range 10) nAcms.toNat g0
  let rows := acmRows φ sel.1 1 sel.2
  let nFscms := min st.fscm_count 8
  ((rows.1, FSCM_DATA.take nFscms.toNat), rseed 42)

/-- A JIPTL table row: priority, target id, jittered location, desired effect,
nominator and objective.  Constant columns (name, category, CDE, status) are
fixed functions of the target. -/
structure JiptlRow where
  pri : Nat
  tid : String
  loc : String
  effect : String
  nominator : String
  obj : String
deriving DecidableEq

def EFFECTS : List String :=
  ["DESTROY", "NEUTRALIZE", "DENY", "DISRUPT", "DISRUPT (NON-LETHAL)", "DEGRADE"]

def NOMINATORS : List String := ["SOTF-C", "SOTF-K", "SOTF-B", "MISTF", "CATF", "J-2"]

def OBJECTIVES : List String :=
  ["OBJ 1: Secure Corridor", "OBJ 2: Neutralize SLM", "OBJ 3: Counter SLM", "OBJ 4: Isolate"]

/-- Above-the-cut JIPTL rows: jitter the location, then the effect draw (only
for non-INFO-OPS targets, which otherwise get the fixed non-lethal effect),
then nominator and objective draws. -/
def jiptlRowsAbove (φ : Entropy) : List Target → Nat → RState → List JiptlRow × RState
  | [], _, g => ([], g)
  | t :: ts, pri, g =>
    let jg := jitter_mgrs φ t.mgrs g
    let eg : String × RState :=
      if t.cat ≠ "INFO OPS" then pick φ (EFFECTS.take 4) "" jg.2
      else ("DISRUPT (NON-LETHAL)", jg.2)
    let ng := pick φ NOMINATORS "" eg.2
    let og := pick φ OBJECTIVES "" ng.2
    let rest := jiptlRowsAbove φ ts (pri + 1) og.2
    (⟨pri, t.id, jg.1, eg.1, ng.1, og.1⟩ :: rest.1, rest.2)

/-- Below-the-cut JIPTL rows: as above but the effect is drawn from all six
effects unconditionally. -/
def jiptlRowsBelow (φ : Entropy) : List Target → Nat → RState → List JiptlRow × RState
  | [], _, g => ([], g)
  | t :: ts, pri, g =>
    let jg := jitter_mgrs φ t.mgrs g
    let eg := pick φ EFFECTS "" jg.2
    let ng := pick φ NOMINATORS "" eg.2
    let og := pick φ OBJECTIVES "" ng.2
    let rest := jiptlRowsBelow φ ts (pri + 1) og.2
    (⟨pri, t.id, jg.1, eg.1, ng.1, og.1⟩ :: rest.1, rest.2)

/-- The random-dependent content of `generate_jiptl`: reseed with `42 + day`,
build the above-cut rows, then — when the below-cut list is non-empty — the
below-cut rows numbered from `len(above) + 1`, then `random.seed(42)`. -/
def jiptlContent (φ : Entropy) (st : DailyState) (_g : RState) :
    (List JiptlRow × List JiptlRow) × RState :=
  let g0 := rseed (42 + st.day)
  let ab := jiptlRowsAbove φ st.jiptl_above_cut 1 g0
  let bl : List JiptlRow × RState :=
    if st.jiptl_below_cut.isEmpty then ([], ab.2)
    else jiptlRowsBelow φ st.jiptl_below_cut (st.jiptl_above_cut.length + 1) ab.2
  ((ab.1, bl.1), rseed 42)

/-! ## Main orchestrator (`run`) -/

/-- Which conditional document kinds fire on a day.  The four daily kinds
(FRAGO, ATO, ACO, JIPTL) are emitted unconditionally, one per day record. -/
structure Flags where
  opord : Bool
  roe : Bool
  ccir : Bool
  pir : Bool
deriving DecidableEq

/-- Everything `run` produces for one day: the daily state, the emission
flags, the serial numbers assigned, and the random-dependent document
content. -/
structure DayRecord where
  day : Nat
  state : DailyState
  flags : Flags
  fragoNum : Nat
  tip24 : Int
  aco : List AcmRow × List (String × String × String × String)
  jiptl : List JiptlRow × List JiptlRow
  roeVersion : Option Nat
  ccirNum : Option Nat
  pirNum : Option Nat
deriving DecidableEq

/-- The mutable loop state of `run`: the generator plus the campaign-wide
counters and the last emitted phase. -/
structure RunAcc where
  g : RState
  fragoC : Nat
  ccirC : Nat
  pirC : Nat
  roeV : Nat
  lastPhase : Nat
deriving DecidableEq

/-- One iteration of the day loop in `run` (lines 1188-1240), in source order:
construct the state, detect the phase change, emit OPORD/ROE on transition,
FRAGO (with its ambient tip-line draw), ATO, ACO, JIPTL daily, and CCIR/PIR on
the interval or a transition. -/
def dayStep (φ : Entropy) (day : Nat) (acc : RunAcc) : DayRecord × RunAcc :=
  let stg := dailyState φ acc.g day
  let st := stg.1
  let phase_changed : Bool := st.phase != acc.lastPhase
  let roeV1 := if phase_changed then acc.roeV + 1 else acc.roeV
  let fragoC1 := acc.fragoC + 1
  let tip := fragoTipDraw φ st stg.2
  let aco := acoContent φ st tip.2
  let jp := jiptlContent φ st aco.2
  let ccirFire : Bool := (day % CCIR_INTERVAL == 0) || phase_changed
  let ccirC1 := if ccirFire then acc.ccirC + 1 else acc.ccirC
  let pirFire : Bool := (day % PIR_INTERVAL == 0) || phase_changed
  let pirC1 := if pirFire then acc.pirC + 1 else acc.pirC
  ({ day := day, state := st
     flags := ⟨phase_changed, phase_changed, ccirFire, pirFire⟩
     fragoNum := fragoC1, tip24 := tip.1, aco := aco.1, jiptl := jp.1
     roeVersion := if phase_changed then some roeV1 else none
     ccirNum := if ccirFire then some ccirC1 else none
     pirNum := if pirFire then some pirC1 else none },
   ⟨jp.2, fragoC1, ccirC1, pirC1, roeV1, st.phase⟩)

/-- The day loop of `run` over a list of day indices. -/
def runAux (φ : Entropy) : List Nat → RunAcc → List DayRecord × RunAcc
  | [], acc => ([], acc)
  | d :: ds, acc =>
    ((dayStep φ d acc).1 :: (runAux φ ds (dayStep φ d acc).2).1,
     (runAux φ ds (dayStep φ d acc).2).2)

/-- Result of `run`: the eight per-kind output directories (created before the
loop, regardless of `num_days`) and the per-day records. -/
structure RunResult where
  dirs : List String
  records : List DayRecord
deriving DecidableEq

/-- `run(num_days, output_root)`: directories first, then the loop over
`range(num_days)` (empty when `num_days <= 0`) starting from the module-load
generator state `random.seed(42)`, zero counters and `last_phase = 0`.  The
CLI applies no validation to `--days` beyond integer parsing. -/
def runModel (φ : Entropy) (numDays : Int) : RunResult :=
  { dirs := ["OPORD", "FRAGO", "ATO", "ROE", "ACO", "CCIR", "PIR", "JIPTL"]
    records := (runAux φ (List.range numDays.toNat) ⟨rseed 42, 0, 0, 0, 0, 0⟩).1 }

/-- The per-day document content as a pure function of the day index (and the
entropy), used to state run-order independence: exactly the chain a day's
iteration performs when it starts from the fresh seed-42 state. -/
def pureDay (φ : Entropy) (d : Nat) :
    DailyState × Int × (List AcmRow × List (String × String × String × String)) ×
      (List JiptlRow × List JiptlRow) :=
  let stg := dailyState φ (rseed 42) d
  let tip := fragoTipDraw φ stg.1 stg.2
  let aco := acoContent φ stg.1 tip.2
  let jp := jiptlContent φ stg.1 aco.2
  (stg.1, tip.1, aco.1, jp.1)

/-! ## Helper lemmas -/

/-- `get_phase` in closed form: the first matching inclusive range wins, and
everything past day 999 falls back to phase 4. -/
theorem get_phase_closed_form (d : Nat) :
    get_phase d = if d ≤ 30 then 1 else if d ≤ 120 then 2 else if d ≤ 270 then 3 else 4 := by
  by_cases h1 : d ≤ 30
  · simp [get_phase, PHASES, List.find?, h1]
  · have h1' : 31 ≤ d := by omega
    by_cases h2 : d ≤ 120
    · simp [get_phase, PHASES, List.find?, h1, h1', h2]
    · have h2' : 121 ≤ d := by omega
      by_cases h3 : d ≤ 270
      · simp [get_phase, PHASES, List.find?, h1, h2, h1', h2', h3]
      · have h3' : 271 ≤ d := by omega
        by_cases h4 : d ≤ 999 <;>
          simp [get_phase, PHASES, List.find?, h1, h2, h3, h1', h2', h3', h4]

/-- A sample without replacement has `min k |population|` elements. -/
theorem sampleAux_length (φ : Entropy) :
    ∀ (k : Nat) (l : List α) (g : RState), (sampleAux φ k l g).1.length = min k l.length := by
  intro k
  induction k with
  | zero => intro l g; simp [sampleAux]
  | succ k ih =>
    intro l g
    match l with
    | [] => simp [sampleAux]
    | x :: xs =>
      simp only [sampleAux, List.length_cons]
      rw [ih]
      have hlt : (next φ g).1 % (xs.length + 1) < xs.length + 1 :=
        Nat.mod_lt _ (Nat.succ_pos _)
      have herase : ((x :: xs).eraseIdx ((next φ g).1 % (xs.length + 1))).length = xs.length := by
        have := List.length_eraseIdx_add_one (l := x :: xs)
          (i := (next φ g).1 % (xs.length + 1)) (by simpa using hlt)
        simpa using this
      rw [herase]
      omega

/-- The pool of available targets only grows with the day. -/
theorem availableTargets_mono : ∀ {d e : Nat}, d ≤ e →
    (availableTargets d).length ≤ (availableTargets e).length := by
  intro d e h
  exact List.Sublist.length_le
    (List.monotone_filter_right _ (fun t ht => by
      simp only [decide_eq_true_eq] at ht ⊢; omega))

/-- Target identifiers in the catalog are pairwise distinct. -/
theorem pool_ids_nodup : (TARGET_POOL.map (fun t => t.id)).Nodup := by decide

/-- Removing the targets whose (pairwise distinct) ids appear in `ids` deletes
at most `|ids|` list entries. -/
theorem filter_remove_bound (l : List Target) (ids : List String)
    (hnd : (l.map (fun t => t.id)).Nodup) :
    l.length ≤ (l.filter (fun t => !(ids.contains t.id))).length + ids.length := by
  have hsplit := List.length_eq_length_filter_add (l := l) (fun t => !(ids.contains t.id))
  have hnn : (l.filter (fun t => !(!(ids.contains t.id)))) =
      l.filter (fun t => ids.contains t.id) := by
    simp [Bool.not_not]
  rw [hnn] at hsplit
  set rem := l.filter (fun t => ids.contains t.id) with hrem
  have hsub : List.Sublist (rem.map (fun t => t.id)) (l.map (fun t => t.id)) :=
    List.Sublist.map _ (List.filter_sublist l)
  have hnd2 : (rem.map (fun t => t.id)).Nodup := hnd.sublist hsub
  have hss : ∀ x ∈ rem.map (fun t => t.id), x ∈ ids := by
    intro x hx
    rcases List.mem_map.mp hx with ⟨t, ht, rfl⟩
    have := List.mem_filter.mp ht
    simpa using this.2
  have hlen : rem.length ≤ ids.length := by
    have h1 : (rem.map (fun t => t.id)).length = (rem.map (fun t => t.id)).toFinset.card :=
      (List.toFinset_card_of_nodup hnd2).symm
    have h2 : (rem.map (fun t => t.id)).toFinset ⊆ ids.toFinset := by
      intro x hx
      exact List.mem_toFinset.mpr (hss x (List.mem_toFinset.mp hx))
    have h3 := Finset.card_le_card h2
    have h4 := List.toFinset_card_le (l := ids)
    have h5 : rem.length = (rem.map (fun t => t.id)).length := (List.length_map _ _).symm
    omega
  omega

/-- Available-target ids inherit distinctness from the catalog. -/
theorem avail_ids_nodup (d : Nat) : ((availableTargets d).map (fun t => t.id)).Nodup :=
  pool_ids_nodup.sublist (List.Sublist.map _ (List.filter_sublist TARGET_POOL))

/-- On every day the post-neutralization active-target list keeps at least
five targets. -/
theorem active_ge_five (φ : Entropy) (g : RState) (d : Nat) :
    5 ≤ (dailyState φ g d).1.active_targets.length := by
  have hrfl : (dailyState φ g d).1.active_targets = (dayTargetSection φ d).1.1 := rfl
  rw [hrfl]
  have havail : 12 ≤ (availableTargets d).length := by
    have h0 : (availableTargets 0).length = 12 := by decide
    have := availableTargets_mono (Nat.zero_le d)
    omega
  by_cases hnc : 0 < neutralized_count d
  · have hncle : neutralized_count d ≤ ((availableTargets d).length : Int) - 5 :=
      min_le_left _ _
    simp only [dayTargetSection, hnc, if_true]
    rw [shuffle, sampleAux_length, min_self]
    have hids : ((sample φ (availableTargets d) (neutralized_count d).toNat
        (rseed (42 + d))).1.map (fun t => t.id)).length ≤ (neutralized_count d).toNat := by
      rw [List.length_map, sample, sampleAux_length]
      omega
    have hb := filter_remove_bound (availableTargets d)
      ((sample φ (availableTargets d) (neutralized_count d).toNat (rseed (42 + d))).1.map
        (fun t => t.id)) (avail_ids_nodup d)
    have htn : (neutralized_count d).toNat ≤ (availableTargets d).length - 5 := by
      omega
    omega
  · simp only [dayTargetSection, hnc, if_false]
    rw [shuffle, sampleAux_length, min_self]
    have : (availableTargets d).filter (fun t => !(([] : List String).contains t.id)) =
        availableTargets d := by
      simp
    rw [this]
    omega

/-- `min(len(available) - 5, floor(day * 0.03))` is non-decreasing in the day. -/
theorem neutralized_count_mono : ∀ {d e : Nat}, d ≤ e →
    neutralized_count d ≤ neutralized_count e := by
  intro d e h
  apply min_le_min
  · have := availableTargets_mono h
    omega
  · have : (3 * d / 100) ≤ (3 * e / 100) :=
      Nat.div_le_div_right (Nat.mul_le_mul_left _ h)
    omega

/-- When every day in the loop starts from the fresh seed-42 state, each day
record's random-dependent content is the pure per-day chain, independently of
the counter values carried in. -/
theorem runAux_view (φ : Entropy) : ∀ (days : List Nat) (fc cc pc rv lp : Nat),
    ((runAux φ days ⟨rseed 42, fc, cc, pc, rv, lp⟩).1).map
        (fun r => (r.day, r.state, r.tip24, r.aco, r.jiptl))
      = days.map (fun d => (d, pureDay φ d)) := by
  intro days
  induction days with
  | nil => intro fc cc pc rv lp; rfl
  | cons d ds ih =>
    intro fc cc pc rv lp
    simp only [runAux, List.map_cons]
    refine congrArg₂ (· :: ·) rfl ?_
    exact ih _ _ _ _ _

/-! ## Claim theorems -/

/-- Claim C1: running the generator for 8 days (all in phase 1, with
`CCIR_INTERVAL = PIR_INTERVAL = 3`) emits exactly 1 OPORD and 1 ROE, both on
the day-0 transition; each of the 8 day records carries exactly one FRAGO,
ATO, ACO and JIPTL (the four daily kinds), so 8 of each; and the CCIR and PIR
periodic kinds fire exactly on days 0, 3 and 6 — 3 documents each, with at
most one per kind per day since each record holds a single emission flag per
periodic kind. -/
theorem C1_eight_day_schedule (φ : Entropy) :
    (runModel φ 8).records.length = 8 ∧
    ((runModel φ 8).records.map (fun r => r.flags)) =
      [⟨true, true, true, true⟩, ⟨false, false, false, false⟩, ⟨false, false, false, false⟩,
       ⟨false, false, true, true⟩, ⟨false, false, false, false⟩, ⟨false, false, false, false⟩,
       ⟨false, false, true, true⟩, ⟨false, false, false, false⟩] ∧
    ((runModel φ 8).records.countP (fun r => r.flags.opord) = 1) ∧
    ((runModel φ 8).records.countP (fun r => r.flags.roe) = 1) ∧
    ((runModel φ 8).records.countP (fun r => r.flags.ccir) = 3) ∧
    ((runModel φ 8).records.countP (fun r => r.flags.pir) = 3) ∧
    (((runModel φ 8).records.filter (fun r => r.flags.ccir)).map (fun r => r.day) = [0, 3, 6]) ∧
    (((runModel φ 8).records.filter (fun r => r.flags.pir)).map (fun r => r.day) = [0, 3, 6]) :=
  ⟨rfl, rfl, rfl, rfl, rfl, rfl, rfl, rfl⟩

/-- Claim C2: with the fixed global seed 42, re-deriving the Daily State for
the same day yields an identical state in every component (the six metrics,
the selected events, the above/below-cut target split and the mission list are
all fields of the structure, so full structure equality covers each).  The
second derivation starts from the generator state the first one leaves behind,
which the construction resets to the seeded state. -/
theorem C2_daily_state_deterministic (φ : Entropy) (d : Nat) :
    (dailyState φ (dailyState φ (rseed 42) d).2 d).1 = (dailyState φ (rseed 42) d).1 := rfl

/-- Claim C3 counterexample: the claim asserts that randomness drawn after a
Daily State construction matches what it would have been had the day-seeded
reseed-and-draw not touched the ambient stream.  With the entropy function
`fun _ i => i` (each draw reveals its position), the first raw draw after the
real construction (position 0 of the reset stream) differs from the first draw
after the counterfactual construction `dailyStateSpec`, which continues the
ambient stream past the draws the construction consumed — the final
`random.seed(42)` is a constant reset, not a restore of the prior state. -/
theorem C3_counterexample :
    (next (fun _ i => i) (dailyState (fun _ i => i) (rseed 42) 0).2).1 ≠
      (next (fun _ i => i) (dailyStateSpec (fun _ i => i) (rseed 42) 0).2).1 := by
  decide

/-- Claim C3 (amended): the day-seeded draw is followed by `random.seed(42)` —
a reset to the constant global seed, not a restoration of the prior ambient
state — so the generator state after every Daily State construction is the
fresh seed-42 state, identical for all incoming ambient states; later draws
are a fixed function of the entropy, not a continuation of the pre-construction
stream. -/
theorem C3_reset_to_seed42 (φ : Entropy) (g g' : RState) (d : Nat) :
    (dailyState φ g d).2 = rseed 42 ∧ (dailyState φ g d).2 = (dailyState φ g' d).2 :=
  ⟨rfl, rfl⟩

/-- Claim C4: the phase resolver is total, the phase it returns has an
inclusive range containing the day — except past day 999, where the fallback
phase 4 is returned — and the declared ranges are pairwise disjoint, so the
number of phases whose range contains a given day is exactly 1 up to day 999
and 0 beyond it (exactly one phase is resolved per day). -/
theorem C4_phase_resolution_total : ∀ d : Nat,
    (phase_info (get_phase d)).start ≤ d ∧
    (d ≤ (phase_info (get_phase d)).stop ∨ (999 < d ∧ get_phase d = 4)) ∧
    (PHASES.countP (fun p => decide (p.2.start ≤ d ∧ d ≤ p.2.stop)) =
      if d ≤ 999 then 1 else 0) := by
  intro d
  rw [get_phase_closed_form d]
  by_cases h1 : d ≤ 30 <;> by_cases h2 : d ≤ 120 <;> by_cases h3 : d ≤ 270 <;>
      by_cases h4 : d ≤ 999 <;>
    simp [phase_info, PHASES, List.find?, List.countP_cons, List.countP_nil,
      h1, h2, h3, h4] <;> (try split_ifs) <;> omega

/-- Claim C5: the neutralized-target count `min(len(available) - 5,
floor(day * 0.03))` is non-decreasing in the day, and the active-target list
always retains at least 5 targets, for every entropy and every incoming
generator state. -/
theorem C5_neutralization_monotone_floor (φ : Entropy) (g : RState) (d e : Nat)
    (h : d ≤ e) :
    neutralized_count d ≤ neutralized_count e ∧
    5 ≤ (dailyState φ g d).1.active_targets.length :=
  ⟨neutralized_count_mono h, active_ge_five φ g d⟩

/-- Witness for C5 at `d = 0`, `e = 7` with the constant-zero entropy. -/
theorem C5_witness : (0 : Nat) ≤ 7 ∧
    (neutralized_count 0 ≤ neutralized_count 7 ∧
      5 ≤ (dailyState (fun _ _ => 0) (rseed 42) 0).1.active_targets.length) :=
  ⟨by decide, C5_neutralization_monotone_floor (fun _ _ => 0) (rseed 42) 0 7 (by decide)⟩

/-- Claim C6 fails on the code: the corridor threat score has no upper clamp,
so a day-0 noise draw of `+1` (entropy constantly 2 makes `randint(-1, 1)`
return `2 % 3 - 1 = 1`) produces `max(1, 10 - 0 + 1) = 11`, outside the
1-to-10 range the claim — and the source's own inline comment `# 1-10` —
require. -/
theorem C6_corridor_threat_eleven :
    (dailyState (fun _ _ => 2) (rseed 42) 0).1.corridor_threat = 11 := by decide

/-- Claim C7 counterexample: the claim says the presentation shuffle consumes
the ambient stream and is independent of the `seed = 42 + day` reseed.  The
two entropy functions below agree everywhere except on the day-1 reseed stream
(seed 43), hence describe PRNGs with identical ambient behavior, yet the
shuffled active-target order differs — the shuffle reads the day-seeded
stream, which begins at line 283 of the source, before the shuffle at
line 289. -/
theorem C7_counterexample :
    (dailyState (fun _ _ => 0) (rseed 42) 1).1.active_targets ≠
      (dailyState (fun s _ => if s = 43 then 1 else 0) (rseed 42) 1).1.active_targets := by
  decide

/-- Claim C7 (amended): the presentation-order shuffle of the surviving
targets consumes the day-seeded stream (`seed = 42 + day`), not the ambient
stream: the shuffled order is the same for every ambient generator state at
construction start. -/
theorem C7_shuffle_day_seeded (φ : Entropy) (g g' : RState) (d : Nat) :
    (dailyState φ g d).1.active_targets = (dailyState φ g' d).1.active_targets := rfl

/-- Claim C8: `jitter_mgrs` never raises — in the embedding it is a total
function — and on any malformed coordinate string (fewer than four
whitespace-separated parts, or an easting/northing that does not parse as an
integer) it returns the original string unchanged. -/
theorem C8_jitter_malformed_fallback (φ : Entropy) (g : RState) (s : String)
    (h : (pySplit s).length < 4 ∨ pyInt ((pySplit s).getD 2 "") = none ∨
      pyInt ((pySplit s).getD 3 "") = none) :
    (jitter_mgrs φ s g).1 = s := by
  by_cases h4 : 4 ≤ (pySplit s).length
  · have e2 : (pySplit s).getD 2 "" = (pySplit s).get ⟨2, by omega⟩ :=
      List.getD_eq_get _ _ (by omega)
    have e3 : (pySplit s).getD 3 "" = (pySplit s).get ⟨3, by omega⟩ :=
      List.getD_eq_get _ _ (by omega)
    unfold jitter_mgrs
    rw [dif_pos h4]
    rcases h with hlen | h2 | h3
    · omega
    · rw [e2] at h2
      split
      · rfl
      · rename_i e0 heq
        rw [h2] at heq
        cases heq
    · rw [e3] at h3
      split
      · rfl
      · split
        · rfl
        · rename_i n0 heq
          rw [h3] at heq
          cases heq
  · unfold jitter_mgrs
    rw [dif_neg h4]

/-- Witness for C8 on the malformed string `"17R NM 45X3 78"`, whose third
part fails integer parsing. -/
theorem C8_witness :
    ((pySplit "17R NM 45X3 78").length < 4 ∨
      pyInt ((pySplit "17R NM 45X3 78").getD 2 "") = none ∨
      pyInt ((pySplit "17R NM 45X3 78").getD 3 "") = none) ∧
    (jitter_mgrs (fun _ _ => 0) "17R NM 45X3 78" (rseed 0)).1 = "17R NM 45X3 78" :=
  ⟨Or.inr (Or.inl (by decide)),
   C8_jitter_malformed_fallback _ _ _ (Or.inr (Or.inl (by decide)))⟩

/-- Claim C9 counterexample: for `--days -1` the run is not rejected — the
eight output directories are still created before the loop.  (The day loop
itself is empty, so no documents are produced.) -/
theorem C9_counterexample : (runModel (fun _ _ => 0) (-1)).dirs ≠ [] ∧
    (runModel (fun _ _ => 0) (-1)).records = [] := by
  exact ⟨by decide, rfl⟩

/-- Claim C9 (amended): a non-positive `--days` is not validated or rejected;
`run` still creates all eight output directories, and only the day loop is
empty, so no documents are generated. -/
theorem C9_nonpositive_days (φ : Entropy) (n : Int) (h : n ≤ 0) :
    (runModel φ n).records = [] ∧ (runModel φ n).dirs.length = 8 := by
  have h0 : n.toNat = 0 := Int.toNat_of_nonpos h
  exact ⟨by simp [runModel, h0, runAux], rfl⟩

/-- Witness for C9 at `n = -2`. -/
theorem C9_witness : ((-2 : Int) ≤ 0) ∧
    ((runModel (fun _ _ => 0) (-2)).records = [] ∧
      (runModel (fun _ _ => 0) (-2)).dirs.length = 8) :=
  ⟨by decide, C9_nonpositive_days _ (-2) (by decide)⟩

/-- Claim C10: every Daily State construction, `generate_aco` and
`generate_jiptl` end by reseeding the generator with the constant 42, so each
iteration of the day loop starts from the fresh seed-42 state; consequently
every day record's state and random-dependent document content (the FRAGO
tip-line figure and the ACO and JIPTL tables) equals the pure per-day function
`pureDay` of the day index alone, independent of the total day count and of
the campaign-wide counters — which, with `last_phase`, are the only cross-day
state. -/
theorem C10_reseed_discipline :
    (∀ (φ : Entropy) (g : RState) (d : Nat), (dailyState φ g d).2 = rseed 42) ∧
    (∀ (φ : Entropy) (st : DailyState) (g : RState), (acoContent φ st g).2 = rseed 42) ∧
    (∀ (φ : Entropy) (st : DailyState) (g : RState), (jiptlContent φ st g).2 = rseed 42) ∧
    (∀ (φ : Entropy) (n : Nat),
      ((runModel φ (n : Int)).records.map (fun r => (r.day, r.state, r.tip24, r.aco, r.jiptl))) =
        (List.range n).map (fun d => (d, pureDay φ d))) := by
  refine ⟨fun _ _ _ => rfl, fun _ _ _ => rfl, fun _ _ _ => rfl, ?_⟩
  intro φ n
  have h0 : ((n : Int)).toNat = n := Int.toNat_natCast n
  simp only [runModel, h0]
  exact runAux_view φ (List.range n) 0 0 0 0 0

end OGG
